import Mathlib

/-!
Verification development for the MoltenVK descriptor-to-Metal-resource-index
translation and binding engine (`MVKDescriptor.h`).

The repository sources under scrutiny are C++ headers declaring:
  * `MVKShaderStageResourceBinding` — three `uint16_t` counters
    (bufferIndex, textureIndex, samplerIndex) with `operator+`/`operator+=`;
  * `MVKShaderResourceBinding` — one `MVKShaderStageResourceBinding` per
    shader stage;
  * `MVKDescriptorSetLayoutBinding` — one declared binding of a descriptor
    set layout, with `initMetalResourceIndexOffsets`, `bind` and `push`;
  * `MVKDescriptor` and its variants (buffer, dynamic buffer, image,
    sampler, combined image-sampler, texel buffer, inline uniform block)
    with `bind` / `write` / `read` / `reset`;
  * `MVKSamplerDescriptorMixin` — shared sampler tracking with an
    `_hasDynamicSampler` flag and immutable-sampler handling.

The headers carry declarations and inline bodies; the out-of-line method
bodies live in an implementation file that is not part of the sources, so
those operations are modelled from the specification (each such definition
says so in its doc comment).  Machine integers are embedded as `Nat` with
explicit reduction modulo 2^16 where the header declares `uint16_t`.
-/

namespace MVK

/-- The Metal shader stages, from the `kMVKShaderStageMax`-sized stage arrays
in the header (vertex, tessellation control, tessellation eval, fragment,
compute). -/
inductive MVKShaderStage where
  | vertex
  | tessCtl
  | tessEval
  | fragment
  | compute
deriving DecidableEq, Repr

/-- The declaration-order list of all shader stages. -/
def stageList : List MVKShaderStage :=
  [.vertex, .tessCtl, .tessEval, .fragment, .compute]

/-- The Vulkan descriptor types handled by the descriptor variants declared
in the header. -/
inductive VkDescriptorType where
  | sampler
  | combinedImageSampler
  | sampledImage
  | storageImage
  | inputAttachment
  | uniformTexelBuffer
  | storageTexelBuffer
  | uniformBuffer
  | storageBuffer
  | uniformBufferDynamic
  | storageBufferDynamic
  | inlineUniformBlockEXT
deriving DecidableEq, Repr

/-- `uint16_t` addition: the header stores the three resource counters as
`uint16_t`, so accumulation wraps modulo 2^16. -/
def u16add (a b : Nat) : Nat := (a + b) % 65536

/-- `MVKShaderStageResourceBinding`: the Metal resource indexes used by a
single shader stage in a descriptor (header: three `uint16_t` fields,
each default-initialised to 0). -/
structure MVKShaderStageResourceBinding where
  bufferIndex : Nat := 0
  textureIndex : Nat := 0
  samplerIndex : Nat := 0
deriving DecidableEq, Repr

namespace MVKShaderStageResourceBinding

/-- Modelled from the spec: `operator+` of `MVKShaderStageResourceBinding`
(body not in the headers) — immutable componentwise addition of the three
counters, stored back into `uint16_t` fields. -/
def add (a b : MVKShaderStageResourceBinding) : MVKShaderStageResourceBinding :=
  { bufferIndex := u16add a.bufferIndex b.bufferIndex
    textureIndex := u16add a.textureIndex b.textureIndex
    samplerIndex := u16add a.samplerIndex b.samplerIndex }

/-- Validity of a stage binding as a `uint16_t` triple: every counter is in
range. -/
def isValid (a : MVKShaderStageResourceBinding) : Prop :=
  a.bufferIndex < 65536 ∧ a.textureIndex < 65536 ∧ a.samplerIndex < 65536

instance (a : MVKShaderStageResourceBinding) : Decidable a.isValid := by
  unfold isValid; infer_instance

end MVKShaderStageResourceBinding

/-- `MVKShaderResourceBinding`: the Metal resource indexes used by each
shader stage in a descriptor (header: a stage-indexed array of
`MVKShaderStageResourceBinding`). -/
structure MVKShaderResourceBinding where
  stages : MVKShaderStage → MVKShaderStageResourceBinding

namespace MVKShaderResourceBinding

/-- Modelled from the spec: `operator+` of `MVKShaderResourceBinding` (body
not in the headers) — stagewise addition. -/
def add (a b : MVKShaderResourceBinding) : MVKShaderResourceBinding :=
  ⟨fun s => (a.stages s).add (b.stages s)⟩

/-- The all-zero resource binding (the default-initialised struct). -/
def zero : MVKShaderResourceBinding := ⟨fun _ => {}⟩

end MVKShaderResourceBinding

/-- A declared Vulkan descriptor-set-layout binding, as consumed by
`MVKDescriptorSetLayoutBinding` (binding number, descriptor type, array
length, applicable-stage flags, immutable sampler handles).  Sampler
handles are embedded as numeric identifiers. -/
structure VkDescriptorSetLayoutBinding where
  binding : Nat
  descriptorType : VkDescriptorType
  descriptorCount : Nat
  stageFlags : MVKShaderStage → Bool
  immutableSamplers : List Nat := []

/-- Modelled from the spec: the per-type Metal index consumption used by
`MVKDescriptorSetLayoutBinding::initMetalResourceIndexOffsets` (body not in
the headers).  Buffer-bearing types consume one buffer slot per array
element; image-bearing types one texture slot; samplers one sampler slot;
combined image-sampler one texture and one sampler slot; texel buffers one
texture slot when the platform has native texel buffers, otherwise one
buffer slot; an inline uniform block consumes one buffer slot regardless of
its byte size. -/
def typeFootprint (nativeTexelBuffers : Bool) (t : VkDescriptorType)
    (count : Nat) : MVKShaderStageResourceBinding :=
  match t with
  | .sampler => { samplerIndex := count }
  | .combinedImageSampler => { textureIndex := count, samplerIndex := count }
  | .sampledImage => { textureIndex := count }
  | .storageImage => { textureIndex := count }
  | .inputAttachment => { textureIndex := count }
  | .uniformTexelBuffer =>
      if nativeTexelBuffers then { textureIndex := count } else { bufferIndex := count }
  | .storageTexelBuffer =>
      if nativeTexelBuffers then { textureIndex := count } else { bufferIndex := count }
  | .uniformBuffer => { bufferIndex := count }
  | .storageBuffer => { bufferIndex := count }
  | .uniformBufferDynamic => { bufferIndex := count }
  | .storageBufferDynamic => { bufferIndex := count }
  | .inlineUniformBlockEXT => { bufferIndex := 1 }

/-- Modelled from the spec: the counter update of
`initMetalResourceIndexOffsets` — for each stage flagged applicable in the
binding, add the binding's footprint to that stage's running counters;
stages not in the applicable set receive no increment. -/
def addFootprint (nativeTexelBuffers : Bool) (b : VkDescriptorSetLayoutBinding)
    (counts : MVKShaderResourceBinding) : MVKShaderResourceBinding :=
  ⟨fun s =>
    if b.stageFlags s then
      (counts.stages s).add (typeFootprint nativeTexelBuffers b.descriptorType b.descriptorCount)
    else counts.stages s⟩

/-- Modelled from the spec:
`MVKDescriptorSetLayoutBinding::initMetalResourceIndexOffsets` (body not in
the headers) — record this binding's offset as the current running total,
then advance the running total by the binding's per-stage footprint.
Returns (recorded offset, new running total). -/
def initMetalResourceIndexOffsets (nativeTexelBuffers : Bool)
    (b : VkDescriptorSetLayoutBinding) (counts : MVKShaderResourceBinding) :
    MVKShaderResourceBinding × MVKShaderResourceBinding :=
  (counts, addFootprint nativeTexelBuffers b counts)

/-- Modelled from the spec: layout construction — process the declared
bindings in declaration order, recording each binding's offset and
threading the running total.  Returns the per-binding offsets (in the same
order) and the final running total. -/
def initLayoutBindings (nativeTexelBuffers : Bool) :
    List VkDescriptorSetLayoutBinding → MVKShaderResourceBinding →
    List MVKShaderResourceBinding × MVKShaderResourceBinding
  | [], counts => ([], counts)
  | b :: bs, counts =>
      let step := initMetalResourceIndexOffsets nativeTexelBuffers b counts
      let rest := initLayoutBindings nativeTexelBuffers bs step.2
      (step.1 :: rest.1, rest.2)

/-- The total per-stage footprint of a binding list, computed independently
of the offset-recording recursion (a left fold of `addFootprint`). -/
def totalFootprint (nativeTexelBuffers : Bool)
    (bs : List VkDescriptorSetLayoutBinding)
    (counts : MVKShaderResourceBinding) : MVKShaderResourceBinding :=
  bs.foldl (fun c b => addFootprint nativeTexelBuffers b c) counts

/-- The two-binding fragment-stage layout of the scenario: a uniform buffer
of count 1 and a combined image-sampler of count 2, both fragment-only. -/
def scenarioBindings : List VkDescriptorSetLayoutBinding :=
  [ { binding := 0, descriptorType := .uniformBuffer, descriptorCount := 1
      stageFlags := fun s => decide (s = .fragment) }
  , { binding := 1, descriptorType := .combinedImageSampler, descriptorCount := 2
      stageFlags := fun s => decide (s = .fragment) } ]

/-- The state of `MVKBufferDescriptor` (header fields `_mvkBuffer`,
`_buffOffset`, `_buffRange`, with the default member initialisers shown in
the header).  Buffer handles are embedded as numeric identifiers. -/
structure BufferDescriptorState where
  mvkBuffer : Option Nat := none
  buffOffset : Nat := 0
  buffRange : Nat := 0
deriving DecidableEq, Repr

/-- The state of `MVKInlineUniformBlockDescriptor` (header fields
`_mtlBuffer`, `_dataSize`).  The backing `MTLBuffer` content is embedded as
the byte list it holds. -/
structure InlineUniformBlockState where
  mtlBuffer : List Nat := []
  dataSize : Nat := 0
deriving DecidableEq, Repr

/-- The state of `MVKImageDescriptor` (header fields `_mvkImageView`,
`_imageLayout`; the layout default `VK_IMAGE_LAYOUT_UNDEFINED` is embedded
as 0). -/
structure ImageDescriptorState where
  mvkImageView : Option Nat := none
  imageLayout : Nat := 0
deriving DecidableEq, Repr

/-- The state of `MVKSamplerDescriptorMixin` (header fields `_mvkSampler`,
`_hasDynamicSampler`, with the header's default member initialisers:
no sampler, dynamic sampler allowed). -/
structure SamplerMixinState where
  mvkSampler : Option Nat := none
  hasDynamicSampler : Bool := true
deriving DecidableEq, Repr

/-- The state of `MVKTexelBufferDescriptor` (header field `_mvkBufferView`). -/
structure TexelBufferState where
  mvkBufferView : Option Nat := none
deriving DecidableEq, Repr

/-- The closed set of concrete `MVKDescriptor` variants declared in the
header, each carrying its variant-specific state
(`MVKCombinedImageSamplerDescriptor` inherits both the image state and the
sampler mixin state). -/
inductive Descriptor where
  | uniformBuffer (s : BufferDescriptorState)
  | storageBuffer (s : BufferDescriptorState)
  | uniformBufferDynamic (s : BufferDescriptorState)
  | storageBufferDynamic (s : BufferDescriptorState)
  | inlineUniformBlock (s : InlineUniformBlockState)
  | sampledImage (s : ImageDescriptorState)
  | storageImage (s : ImageDescriptorState)
  | inputAttachment (s : ImageDescriptorState)
  | sampler (s : SamplerMixinState)
  | combinedImageSampler (img : ImageDescriptorState) (smp : SamplerMixinState)
  | uniformTexelBuffer (s : TexelBufferState)
  | storageTexelBuffer (s : TexelBufferState)
deriving DecidableEq, Repr

/-- `getDescriptorType` of each concrete variant, read off the inline
overrides in the header. -/
def Descriptor.getDescriptorType : Descriptor → VkDescriptorType
  | .uniformBuffer _ => .uniformBuffer
  | .storageBuffer _ => .storageBuffer
  | .uniformBufferDynamic _ => .uniformBufferDynamic
  | .storageBufferDynamic _ => .storageBufferDynamic
  | .inlineUniformBlock _ => .inlineUniformBlockEXT
  | .sampledImage _ => .sampledImage
  | .storageImage _ => .storageImage
  | .inputAttachment _ => .inputAttachment
  | .sampler _ => .sampler
  | .combinedImageSampler _ _ => .combinedImageSampler
  | .uniformTexelBuffer _ => .uniformTexelBuffer
  | .storageTexelBuffer _ => .storageTexelBuffer

/-- A default-state descriptor of each descriptor type, as created when a
descriptor set is allocated against a layout. -/
def defaultDescriptor : VkDescriptorType → Descriptor
  | .uniformBuffer => .uniformBuffer {}
  | .storageBuffer => .storageBuffer {}
  | .uniformBufferDynamic => .uniformBufferDynamic {}
  | .storageBufferDynamic => .storageBufferDynamic {}
  | .inlineUniformBlockEXT => .inlineUniformBlock {}
  | .sampledImage => .sampledImage {}
  | .storageImage => .storageImage {}
  | .inputAttachment => .inputAttachment {}
  | .sampler => .sampler {}
  | .combinedImageSampler => .combinedImageSampler {} {}
  | .uniformTexelBuffer => .uniformTexelBuffer {}
  | .storageTexelBuffer => .storageTexelBuffer {}

/-- `VkDescriptorImageInfo`: the wire-format element for image, sampler and
combined image-sampler writes. -/
structure VkDescriptorImageInfo where
  sampler : Option Nat := none
  imageView : Option Nat := none
  imageLayout : Nat := 0
deriving DecidableEq, Repr

/-- `VkDescriptorBufferInfo`: the wire-format element for buffer writes. -/
structure VkDescriptorBufferInfo where
  buffer : Option Nat := none
  offset : Nat := 0
  range : Nat := 0
deriving DecidableEq, Repr

/-- One decoded element of the type-erased `pData` source array passed to
`write`: which wire structure it carries depends on the descriptor type. -/
inductive WriteSource where
  | image (info : VkDescriptorImageInfo)
  | buffer (info : VkDescriptorBufferInfo)
  | texelBufferView (view : Option Nat)
  | inlineBlock (data : List Nat)
deriving DecidableEq, Repr

/-- The reported result of a descriptor update: success, or the
type-mismatch failure condition. -/
inductive VkResult where
  | success
  | errorTypeMismatch
deriving DecidableEq, Repr

/-- Modelled from the spec: `MVKSamplerDescriptorMixin::write` (body not in
the headers) — the written sampler handle is stored only while the
descriptor still has a dynamic sampler; with `_hasDynamicSampler = false`
the application-supplied handle is ignored. -/
def SamplerMixinState.write (st : SamplerMixinState) (newSampler : Option Nat) :
    SamplerMixinState :=
  if st.hasDynamicSampler then { st with mvkSampler := newSampler } else st

/-- Modelled from the spec: `MVKDescriptor::write` dispatched over the
variants (bodies not in the headers) — validate the caller-declared
descriptor type against the variant's configured type, failing with the
type-mismatch condition and leaving the state unchanged on a mismatch
(a source element whose wire structure does not fit the variant is likewise
a type mismatch); on a match, decode the element into the variant's
fields.  Returns the reported result with the updated descriptor. -/
def Descriptor.write (d : Descriptor) (descriptorType : VkDescriptorType)
    (src : WriteSource) : VkResult × Descriptor :=
  if descriptorType = d.getDescriptorType then
    match d, src with
    | .uniformBuffer _, .buffer info =>
        (.success, .uniformBuffer ⟨info.buffer, info.offset, info.range⟩)
    | .storageBuffer _, .buffer info =>
        (.success, .storageBuffer ⟨info.buffer, info.offset, info.range⟩)
    | .uniformBufferDynamic _, .buffer info =>
        (.success, .uniformBufferDynamic ⟨info.buffer, info.offset, info.range⟩)
    | .storageBufferDynamic _, .buffer info =>
        (.success, .storageBufferDynamic ⟨info.buffer, info.offset, info.range⟩)
    | .inlineUniformBlock _, .inlineBlock data =>
        (.success, .inlineUniformBlock ⟨data, data.length⟩)
    | .sampledImage _, .image info =>
        (.success, .sampledImage ⟨info.imageView, info.imageLayout⟩)
    | .storageImage _, .image info =>
        (.success, .storageImage ⟨info.imageView, info.imageLayout⟩)
    | .inputAttachment _, .image info =>
        (.success, .inputAttachment ⟨info.imageView, info.imageLayout⟩)
    | .sampler st, .image info =>
        (.success, .sampler (st.write info.sampler))
    | .combinedImageSampler _ st, .image info =>
        (.success, .combinedImageSampler ⟨info.imageView, info.imageLayout⟩ (st.write info.sampler))
    | .uniformTexelBuffer _, .texelBufferView v =>
        (.success, .uniformTexelBuffer ⟨v⟩)
    | .storageTexelBuffer _, .texelBufferView v =>
        (.success, .storageTexelBuffer ⟨v⟩)
    | d, _ => (.errorTypeMismatch, d)
  else (.errorTypeMismatch, d)

/-- The four output arrays of `read`; a `none` slot is an output array the
call did not touch (and which may be a null pointer). -/
structure ReadOutput where
  imageInfo : Option VkDescriptorImageInfo := none
  bufferInfo : Option VkDescriptorBufferInfo := none
  texelBufferView : Option (Option Nat) := none
  inlineUniformBlock : Option (List Nat) := none
deriving DecidableEq, Repr

/-- Modelled from the spec: `MVKDescriptor::read` dispatched over the
variants (bodies not in the headers) — serialize the variant's internal
state into the one output array matching the variant, leaving the other
three untouched. -/
def Descriptor.read : Descriptor → ReadOutput
  | .uniformBuffer s => { bufferInfo := some ⟨s.mvkBuffer, s.buffOffset, s.buffRange⟩ }
  | .storageBuffer s => { bufferInfo := some ⟨s.mvkBuffer, s.buffOffset, s.buffRange⟩ }
  | .uniformBufferDynamic s => { bufferInfo := some ⟨s.mvkBuffer, s.buffOffset, s.buffRange⟩ }
  | .storageBufferDynamic s => { bufferInfo := some ⟨s.mvkBuffer, s.buffOffset, s.buffRange⟩ }
  | .inlineUniformBlock s => { inlineUniformBlock := some s.mtlBuffer }
  | .sampledImage s => { imageInfo := some { imageView := s.mvkImageView, imageLayout := s.imageLayout } }
  | .storageImage s => { imageInfo := some { imageView := s.mvkImageView, imageLayout := s.imageLayout } }
  | .inputAttachment s => { imageInfo := some { imageView := s.mvkImageView, imageLayout := s.imageLayout } }
  | .sampler st => { imageInfo := some { sampler := st.mvkSampler } }
  | .combinedImageSampler s st =>
      { imageInfo := some { sampler := st.mvkSampler, imageView := s.mvkImageView, imageLayout := s.imageLayout } }
  | .uniformTexelBuffer s => { texelBufferView := some s.mvkBufferView }
  | .storageTexelBuffer s => { texelBufferView := some s.mvkBufferView }

/-- Modelled from the spec: `reset` dispatched over the variants (bodies
not in the headers) — clear every resource reference and zero the scalar
state, restoring each field to the default member initialiser shown in the
header (for the sampler mixin: no sampler, `_hasDynamicSampler = true`). -/
def Descriptor.reset : Descriptor → Descriptor
  | .uniformBuffer _ => .uniformBuffer {}
  | .storageBuffer _ => .storageBuffer {}
  | .uniformBufferDynamic _ => .uniformBufferDynamic {}
  | .storageBufferDynamic _ => .storageBufferDynamic {}
  | .inlineUniformBlock _ => .inlineUniformBlock {}
  | .sampledImage _ => .sampledImage {}
  | .storageImage _ => .storageImage {}
  | .inputAttachment _ => .inputAttachment {}
  | .sampler _ => .sampler {}
  | .combinedImageSampler _ _ => .combinedImageSampler {} {}
  | .uniformTexelBuffer _ => .uniformTexelBuffer {}
  | .storageTexelBuffer _ => .storageTexelBuffer {}

/-- The destructor of every descriptor variant: each `~MVK...Descriptor()`
body in the header is `{ reset(); }`, so destruction is the `reset`
action. -/
def Descriptor.destroy (d : Descriptor) : Descriptor := d.reset

/-- `MVKDescriptorSetLayoutBinding::getImmutableSampler`: the immutable
sampler at the index, or null if immutable samplers are not used (an empty
list or an out-of-range index yields none). -/
def VkDescriptorSetLayoutBinding.getImmutableSampler
    (b : VkDescriptorSetLayoutBinding) (index : Nat) : Option Nat :=
  b.immutableSamplers[index]?

/-- Modelled from the spec: `MVKSamplerDescriptorMixin::setLayout` (body
not in the headers) — when the layout binding carries an immutable sampler
for this element, source the sampler from the layout and disable dynamic
sampler writes; otherwise keep the dynamic-sampler default. -/
def SamplerMixinState.setLayout (b : VkDescriptorSetLayoutBinding)
    (index : Nat) : SamplerMixinState :=
  match b.getImmutableSampler index with
  | some s => { mvkSampler := some s, hasDynamicSampler := false }
  | none => {}

/-- Modelled from the spec: `setLayout` dispatched over the variants — the
base implementation is a no-op (inline in the header); only the two
sampler-bearing variants override it, forwarding to the mixin. -/
def Descriptor.setLayout (d : Descriptor) (b : VkDescriptorSetLayoutBinding)
    (index : Nat) : Descriptor :=
  match d with
  | .sampler _ => .sampler (SamplerMixinState.setLayout b index)
  | .combinedImageSampler img _ => .combinedImageSampler img (SamplerMixinState.setLayout b index)
  | d => d

/-- One native Metal bind operation emitted during a bind walk: a buffer,
inline byte blob, texture, or sampler bound at a flat per-stage index. -/
inductive BindOp where
  | bindBuffer (stage : MVKShaderStage) (index : Nat) (buffer : Option Nat) (offset : Nat)
  | bindBytes (stage : MVKShaderStage) (index : Nat) (data : List Nat)
  | bindTexture (stage : MVKShaderStage) (index : Nat) (texture : Option Nat)
  | bindSampler (stage : MVKShaderStage) (index : Nat) (smp : Option Nat)
deriving DecidableEq, Repr

/-- The applicable stages of a stage-flag predicate, in stage order. -/
def activeStages (stages : MVKShaderStage → Bool) : List MVKShaderStage :=
  stageList.filter stages

/-- The two dynamic-offset descriptor types. -/
def isDynamicType : VkDescriptorType → Bool
  | .uniformBufferDynamic => true
  | .storageBufferDynamic => true
  | _ => false

/-- Modelled from the spec: `bind` dispatched over the variants (bodies not
in the headers).  A buffer descriptor bound under one of the two
dynamic-offset types consumes exactly one entry of the caller-supplied
dynamic-offset sequence, advancing the cursor, and adds it to the element's
static buffer offset; every other variant consumes none.  Each stage
flagged applicable emits one native bind call per tracked resource at the
stage's flat index plus the element index within the binding.  Returns the
emitted operations and the new dynamic-offset cursor. -/
def Descriptor.bind (d : Descriptor) (descriptorType : VkDescriptorType)
    (descriptorIndex : Nat) (stages : MVKShaderStage → Bool)
    (mtlIndexes : MVKShaderResourceBinding) (pDynamicOffsets : List Nat)
    (dynamicOffsetIndex : Nat) : List BindOp × Nat :=
  match d with
  | .uniformBuffer s | .storageBuffer s | .uniformBufferDynamic s | .storageBufferDynamic s =>
      let dyn := isDynamicType descriptorType
      let dynOff := if dyn then pDynamicOffsets.getD dynamicOffsetIndex 0 else 0
      (((activeStages stages).map fun st =>
          BindOp.bindBuffer st ((mtlIndexes.stages st).bufferIndex + descriptorIndex)
            s.mvkBuffer (s.buffOffset + dynOff)),
       if dyn then dynamicOffsetIndex + 1 else dynamicOffsetIndex)
  | .inlineUniformBlock s =>
      (((activeStages stages).map fun st =>
          BindOp.bindBytes st ((mtlIndexes.stages st).bufferIndex) s.mtlBuffer),
       dynamicOffsetIndex)
  | .sampledImage s | .storageImage s | .inputAttachment s =>
      (((activeStages stages).map fun st =>
          BindOp.bindTexture st ((mtlIndexes.stages st).textureIndex + descriptorIndex) s.mvkImageView),
       dynamicOffsetIndex)
  | .sampler st =>
      (((activeStages stages).map fun stg =>
          BindOp.bindSampler stg ((mtlIndexes.stages stg).samplerIndex + descriptorIndex) st.mvkSampler),
       dynamicOffsetIndex)
  | .combinedImageSampler s st =>
      (((activeStages stages).flatMap fun stg =>
          [BindOp.bindTexture stg ((mtlIndexes.stages stg).textureIndex + descriptorIndex) s.mvkImageView,
           BindOp.bindSampler stg ((mtlIndexes.stages stg).samplerIndex + descriptorIndex) st.mvkSampler]),
       dynamicOffsetIndex)
  | .uniformTexelBuffer s | .storageTexelBuffer s =>
      (((activeStages stages).map fun st =>
          BindOp.bindTexture st ((mtlIndexes.stages st).textureIndex + descriptorIndex) s.mvkBufferView),
       dynamicOffsetIndex)

/-- The element loop of `MVKDescriptorSetLayoutBinding::bind`: run the
descriptors of this binding (the given element indexes, offset by the
binding's start position in the set's flat descriptor array) under the
binding's declared type, threading the dynamic-offset cursor. -/
def bindElems (t : VkDescriptorType) (stages : MVKShaderStage → Bool)
    (mtl : MVKShaderResourceBinding) (descs : List Descriptor) (start : Nat)
    (pDynamicOffsets : List Nat) :
    List Nat → Nat → List BindOp × Nat
  | [], cursor => ([], cursor)
  | e :: es, cursor =>
      let d := descs.getD (start + e) (defaultDescriptor t)
      let r := d.bind t e stages mtl pDynamicOffsets cursor
      let rest := bindElems t stages mtl descs start pDynamicOffsets es r.2
      (r.1 ++ rest.1, rest.2)

/-- Modelled from the spec: `MVKDescriptorSetLayoutBinding::bind` (body not
in the headers) — encode the `descriptorCount` descriptors of this binding,
starting at the binding's first index in the set's flat descriptor array,
at the effective per-stage indexes, and report the number of descriptors
consumed together with the emitted operations and the advanced
dynamic-offset cursor. -/
def VkDescriptorSetLayoutBinding.bind (b : VkDescriptorSetLayoutBinding)
    (descs : List Descriptor) (descStartIndex : Nat)
    (dslMTLRezIdxOffsets : MVKShaderResourceBinding)
    (pDynamicOffsets : List Nat) (dynamicOffsetIndex : Nat) :
    Nat × List BindOp × Nat :=
  let r := bindElems b.descriptorType b.stageFlags dslMTLRezIdxOffsets descs
    descStartIndex pDynamicOffsets (List.range b.descriptorCount) dynamicOffsetIndex
  (b.descriptorCount, r.1, r.2)

/-- Modelled from the spec: the bind walk over a whole descriptor set —
bind each binding (paired with its effective per-stage index offsets) in
declaration order, advancing the start position by the descriptors consumed
and threading the shared dynamic-offset cursor. -/
def bindDescriptorSet :
    List (VkDescriptorSetLayoutBinding × MVKShaderResourceBinding) →
    List Descriptor → Nat → List Nat → Nat → List BindOp × Nat
  | [], _, _, _, cursor => ([], cursor)
  | (b, offs) :: rest, descs, startIndex, pDynamicOffsets, cursor =>
      let r := b.bind descs startIndex offs pDynamicOffsets cursor
      let next := bindDescriptorSet rest descs (startIndex + r.1) pDynamicOffsets r.2.2
      (r.2.1 ++ next.1, next.2)

/-- The number of dynamic-offset entries a binding list demands: one per
array element of each dynamic-offset binding. -/
def dynamicOffsetDemand (bs : List VkDescriptorSetLayoutBinding) : Nat :=
  (bs.map fun b => if isDynamicType b.descriptorType then b.descriptorCount else 0).sum

/-- Well-typedness of a set's flat descriptor array against the walked
bindings: each binding's slots hold descriptors of the binding's declared
type. -/
def SetWellTyped :
    List (VkDescriptorSetLayoutBinding × MVKShaderResourceBinding) →
    List Descriptor → Nat → Bool
  | [], _, _ => true
  | (b, _) :: rest, descs, start =>
      ((List.range b.descriptorCount).all fun i =>
        (descs.getD (start + i) (defaultDescriptor b.descriptorType)).getDescriptorType
          == b.descriptorType) &&
      SetWellTyped rest descs (start + b.descriptorCount)

/-- The descriptor array a freshly allocated set holds for a layout: for
each binding in declaration order, `descriptorCount` default descriptors of
the binding's type. -/
def setDescriptors (bs : List VkDescriptorSetLayoutBinding) : List Descriptor :=
  bs.flatMap fun b => List.replicate b.descriptorCount (defaultDescriptor b.descriptorType)

/-- The four-binding layout of the dynamic-offset scenario:
[static uniform buffer, dynamic uniform buffer ×3, static storage buffer,
dynamic storage buffer ×1], all fragment-only. -/
def dynScenarioLayout : List VkDescriptorSetLayoutBinding :=
  [ { binding := 0, descriptorType := .uniformBuffer, descriptorCount := 1
      stageFlags := fun s => decide (s = .fragment) }
  , { binding := 1, descriptorType := .uniformBufferDynamic, descriptorCount := 3
      stageFlags := fun s => decide (s = .fragment) }
  , { binding := 2, descriptorType := .storageBuffer, descriptorCount := 1
      stageFlags := fun s => decide (s = .fragment) }
  , { binding := 3, descriptorType := .storageBufferDynamic, descriptorCount := 1
      stageFlags := fun s => decide (s = .fragment) } ]

/-- The dynamic-offset scenario walk items: each scenario binding paired
with its computed per-stage index offsets. -/
def dynScenarioItems : List (VkDescriptorSetLayoutBinding × MVKShaderResourceBinding) :=
  dynScenarioLayout.zip (initLayoutBindings true dynScenarioLayout .zero).1

/-- The buffer byte offsets carried by the emitted buffer binds of an
operation list (used to observe which dynamic offsets were applied,
and in which order). -/
def bufferBindOffsets (ops : List BindOp) : List Nat :=
  ops.filterMap fun op =>
    match op with
    | .bindBuffer _ _ _ off => some off
    | _ => none

/-- The in/out counters threaded through successive
`MVKDescriptorSetLayoutBinding::push` invocations: the destination array
element, the number of source elements still to push, and the number of
descriptors pushed so far. -/
structure PushCounters where
  dstArrayElement : Nat
  descriptorCount : Nat
  descriptorsPushed : Nat
deriving DecidableEq, Repr

/-- Modelled from the spec: `MVKDescriptorSetLayoutBinding::push` (body not
in the headers) — apply as many of the remaining source elements as fit in
this binding starting at the destination array element, advancing
`dstArrayElement`, `descriptorCount` and `descriptorsPushed` so a source
write spanning several invocations is handled incrementally. -/
def VkDescriptorSetLayoutBinding.push (b : VkDescriptorSetLayoutBinding)
    (c : PushCounters) : PushCounters :=
  let n := min c.descriptorCount (b.descriptorCount - c.dstArrayElement)
  { dstArrayElement := c.dstArrayElement + n
    descriptorCount := c.descriptorCount - n
    descriptorsPushed := c.descriptorsPushed + n }

/-- The count-4 uniform-buffer binding of the push scenario. -/
def pushScenarioBinding : VkDescriptorSetLayoutBinding :=
  { binding := 0, descriptorType := .uniformBuffer, descriptorCount := 4
    stageFlags := fun s => decide (s = .fragment) }

/-- A sampler layout binding carrying one immutable sampler (handle 7),
used to exercise the immutable-sampler path on concrete inputs. -/
def immutableScenarioBinding : VkDescriptorSetLayoutBinding :=
  { binding := 0, descriptorType := .sampler, descriptorCount := 1
    stageFlags := fun s => decide (s = .fragment)
    immutableSamplers := [7] }

/-- `MVKDescriptor::getVulkanAPIObject`, inline in the header: the base
class reports no controlling Vulkan API object. -/
def MVKDescriptor.getVulkanAPIObject : Option Nat := none

/-- The override table for `getVulkanAPIObject` among the descriptor
variants: the header declares no override of it in any variant, so every
variant maps to no override. -/
def Descriptor.getVulkanAPIObjectOverride : Descriptor → Option (Option Nat) :=
  fun _ => none

/-- Virtual dispatch of `getVulkanAPIObject` on a descriptor: the variant's
override when one exists, the base-class implementation otherwise. -/
def Descriptor.getVulkanAPIObject (d : Descriptor) : Option Nat :=
  (d.getVulkanAPIObjectOverride).getD MVKDescriptor.getVulkanAPIObject

/-- Whether `MVKDescriptorSetLayoutBinding` overrides `getVulkanAPIObject`:
it does (the header declares the override). -/
def layoutBindingOverridesGetVulkanAPIObject : Bool := true

/-- Which of the four `read` output arrays a descriptor type uses. -/
inductive OutSlot where
  | image
  | buffer
  | texelView
  | inlineBlock
deriving DecidableEq, Repr

/-- The output array matching each descriptor type. -/
def outSlotOf : VkDescriptorType → OutSlot
  | .sampler => .image
  | .combinedImageSampler => .image
  | .sampledImage => .image
  | .storageImage => .image
  | .inputAttachment => .image
  | .uniformTexelBuffer => .texelView
  | .storageTexelBuffer => .texelView
  | .uniformBuffer => .buffer
  | .storageBuffer => .buffer
  | .uniformBufferDynamic => .buffer
  | .storageBufferDynamic => .buffer
  | .inlineUniformBlockEXT => .inlineBlock

theorem initLayoutBindings_length (native : Bool)
    (bs : List VkDescriptorSetLayoutBinding) (counts : MVKShaderResourceBinding) :
    (initLayoutBindings native bs counts).1.length = bs.length := by
  induction bs generalizing counts with
  | nil => rfl
  | cons b bs ih => simp [initLayoutBindings, ih]

theorem initLayoutBindings_offset_eq (native : Bool)
    (bs : List VkDescriptorSetLayoutBinding) (counts : MVKShaderResourceBinding)
    (i : Nat) (h : i < bs.length) :
    (initLayoutBindings native bs counts).1[i]? =
      some (totalFootprint native (bs.take i) counts) := by
  induction bs generalizing counts i with
  | nil => exact absurd h (Nat.not_lt_zero i)
  | cons b bs ih =>
      cases i with
      | zero => simp [initLayoutBindings, totalFootprint, initMetalResourceIndexOffsets]
      | succ i =>
          have h' : i < bs.length := Nat.lt_of_succ_lt_succ h
          simp [initLayoutBindings, totalFootprint, ih _ _ h']
          rfl

theorem initLayoutBindings_total_eq (native : Bool)
    (bs : List VkDescriptorSetLayoutBinding) (counts : MVKShaderResourceBinding) :
    (initLayoutBindings native bs counts).2 = totalFootprint native bs counts := by
  induction bs generalizing counts with
  | nil => rfl
  | cons b bs ih => simp [initLayoutBindings, totalFootprint, initMetalResourceIndexOffsets, ih]

/-- Claim C1: layout construction processes bindings in declaration order,
recording each binding's offset as the running total before adding the
binding's per-stage footprint; in the scenario
[uniform-buffer(count 1, fragment), combined-image-sampler(count 2, fragment)],
binding 0 receives fragment offset {buffer 0}, binding 1 receives fragment
offset {texture 0, sampler 0}, and the running total after binding 1 is
{buffer 1, texture 2, sampler 2}. -/
theorem layout_offsets_are_running_totals (native : Bool)
    (bs : List VkDescriptorSetLayoutBinding) (counts : MVKShaderResourceBinding)
    (i : Nat) (h : i < bs.length) :
    ((initLayoutBindings native bs counts).1[i]? =
        some (totalFootprint native (bs.take i) counts) ∧
      (initLayoutBindings native bs counts).2 = totalFootprint native bs counts) ∧
    ((initLayoutBindings true scenarioBindings .zero).1.map (fun r => r.stages .fragment) =
        [{}, { bufferIndex := 1 }] ∧
      (initLayoutBindings true scenarioBindings .zero).2.stages .fragment =
        { bufferIndex := 1, textureIndex := 2, samplerIndex := 2 }) :=
  ⟨⟨initLayoutBindings_offset_eq native bs counts i h,
    initLayoutBindings_total_eq native bs counts⟩,
   by decide, by decide⟩

theorem Descriptor.bind_cursor_eq (d : Descriptor) (t : VkDescriptorType)
    (h : d.getDescriptorType = t) (i : Nat) (stages : MVKShaderStage → Bool)
    (mtl : MVKShaderResourceBinding) (dyn : List Nat) (cursor : Nat) :
    (d.bind t i stages mtl dyn cursor).2 =
      cursor + (if isDynamicType t then 1 else 0) := by
  subst h
  cases d <;> simp [Descriptor.bind, Descriptor.getDescriptorType, isDynamicType]

theorem bindElems_cursor_eq (t : VkDescriptorType) (stages : MVKShaderStage → Bool)
    (mtl : MVKShaderResourceBinding) (descs : List Descriptor) (start : Nat)
    (dyn : List Nat) (es : List Nat) (cursor : Nat)
    (h : ∀ e ∈ es, (descs.getD (start + e) (defaultDescriptor t)).getDescriptorType = t) :
    (bindElems t stages mtl descs start dyn es cursor).2 =
      cursor + es.length * (if isDynamicType t then 1 else 0) := by
  induction es generalizing cursor with
  | nil => simp [bindElems]
  | cons e es ih =>
      simp only [bindElems]
      rw [ih _ (fun x hx => h x (List.mem_cons_of_mem _ hx)),
          Descriptor.bind_cursor_eq _ _ (h e (List.mem_cons_self e es))]
      cases isDynamicType t
      · simp
      · simp
        omega

theorem layoutBinding_bind_cursor_eq (b : VkDescriptorSetLayoutBinding)
    (descs : List Descriptor) (start : Nat) (offs : MVKShaderResourceBinding)
    (dyn : List Nat) (cursor : Nat)
    (h : ∀ i, i < b.descriptorCount →
      (descs.getD (start + i) (defaultDescriptor b.descriptorType)).getDescriptorType
        = b.descriptorType) :
    (b.bind descs start offs dyn cursor).2.2 =
      cursor + (if isDynamicType b.descriptorType then b.descriptorCount else 0) := by
  unfold VkDescriptorSetLayoutBinding.bind
  rw [bindElems_cursor_eq _ _ _ _ _ _ _ _ (fun e he => h e (List.mem_range.mp he))]
  simp only [List.length_range]
  cases isDynamicType b.descriptorType <;> simp

theorem bindDescriptorSet_cursor_eq
    (items : List (VkDescriptorSetLayoutBinding × MVKShaderResourceBinding))
    (descs : List Descriptor) (start : Nat) (dyn : List Nat) (cursor : Nat)
    (h : SetWellTyped items descs start = true) :
    (bindDescriptorSet items descs start dyn cursor).2 =
      cursor + dynamicOffsetDemand (items.map Prod.fst) := by
  induction items generalizing start cursor with
  | nil => simp [bindDescriptorSet, dynamicOffsetDemand]
  | cons item rest ih =>
      obtain ⟨b, offs⟩ := item
      rw [SetWellTyped] at h
      rw [Bool.and_eq_true] at h
      obtain ⟨h1, h2⟩ := h
      rw [List.all_eq_true] at h1
      have h1' : ∀ i, i < b.descriptorCount →
          (descs.getD (start + i) (defaultDescriptor b.descriptorType)).getDescriptorType
            = b.descriptorType := by
        intro i hi
        exact beq_iff_eq.mp (h1 i (List.mem_range.mpr hi))
      simp only [bindDescriptorSet]
      have hcount : (b.bind descs start offs dyn cursor).1 = b.descriptorCount := rfl
      rw [hcount, ih _ _ h2, layoutBinding_bind_cursor_eq _ _ _ _ _ _ h1']
      simp only [dynamicOffsetDemand, List.map_cons, List.sum_cons]
      omega

/-- Claim C2: during a bind walk, a dynamic-offset buffer binding consumes
exactly one dynamic-offset entry per array element (advancing the shared
cursor) while a non-dynamic binding consumes none; for the set
[static, dynamic(3), static, dynamic(1)] a whole-set walk consumes exactly
4 dynamic offsets, in binding-declaration order. -/
theorem bind_walk_dynamic_offset_consumption
    (items : List (VkDescriptorSetLayoutBinding × MVKShaderResourceBinding))
    (descs : List Descriptor) (start : Nat) (pDyn : List Nat) (cursor : Nat)
    (h : SetWellTyped items descs start = true) :
    ((bindDescriptorSet items descs start pDyn cursor).2 =
        cursor + dynamicOffsetDemand (items.map Prod.fst)) ∧
    ((bindDescriptorSet dynScenarioItems (setDescriptors dynScenarioLayout) 0
        [100, 200, 300, 400] 0).2 = 4 ∧
      bufferBindOffsets (bindDescriptorSet dynScenarioItems (setDescriptors dynScenarioLayout) 0
        [100, 200, 300, 400] 0).1 = [0, 100, 200, 300, 0, 400]) :=
  ⟨bindDescriptorSet_cursor_eq items descs start pDyn cursor h, by decide, by decide⟩

theorem bind_walk_dynamic_offset_consumption_witness :
    ((bindDescriptorSet dynScenarioItems (setDescriptors dynScenarioLayout) 0
        [100, 200, 300, 400] 0).2 =
      0 + dynamicOffsetDemand (dynScenarioItems.map Prod.fst)) ∧
    ((bindDescriptorSet dynScenarioItems (setDescriptors dynScenarioLayout) 0
        [100, 200, 300, 400] 0).2 = 4 ∧
      bufferBindOffsets (bindDescriptorSet dynScenarioItems (setDescriptors dynScenarioLayout) 0
        [100, 200, 300, 400] 0).1 = [0, 100, 200, 300, 0, 400]) :=
  bind_walk_dynamic_offset_consumption dynScenarioItems (setDescriptors dynScenarioLayout)
    0 [100, 200, 300, 400] 0 (by decide)

/-- Claim C3: a sampler-bearing descriptor (plain sampler or combined
image-sampler) whose layout binding carries an immutable sampler has
`_hasDynamicSampler = false`, and application-supplied sampler writes are
ignored: after any sampler write, `read` and `bind` always report the
immutable sampler from the layout. -/
theorem immutable_sampler_overrides_writes
    (b : VkDescriptorSetLayoutBinding) (index s : Nat)
    (h : b.getImmutableSampler index = some s)
    (st0 : SamplerMixinState) (img : ImageDescriptorState)
    (info : VkDescriptorImageInfo) (stages : MVKShaderStage → Bool)
    (mtl : MVKShaderResourceBinding) (dyn : List Nat) (cursor i : Nat) :
    (SamplerMixinState.setLayout b index).hasDynamicSampler = false ∧
    ((((Descriptor.sampler st0).setLayout b index).write .sampler (.image info)).2.read).imageInfo
      = some { sampler := some s } ∧
    ((((Descriptor.combinedImageSampler img st0).setLayout b index).write
        .combinedImageSampler (.image info)).2.read).imageInfo
      = some { sampler := some s, imageView := info.imageView, imageLayout := info.imageLayout } ∧
    ((((Descriptor.sampler st0).setLayout b index).write .sampler (.image info)).2.bind
        .sampler i stages mtl dyn cursor).1
      = ((activeStages stages).map fun stg =>
          BindOp.bindSampler stg ((mtl.stages stg).samplerIndex + i) (some s)) ∧
    ((((Descriptor.combinedImageSampler img st0).setLayout b index).write
        .combinedImageSampler (.image info)).2.bind
        .combinedImageSampler i stages mtl dyn cursor).1
      = ((activeStages stages).flatMap fun stg =>
          [BindOp.bindTexture stg ((mtl.stages stg).textureIndex + i) info.imageView,
           BindOp.bindSampler stg ((mtl.stages stg).samplerIndex + i) (some s)]) := by
  simp [SamplerMixinState.setLayout, h, Descriptor.setLayout, Descriptor.write,
        Descriptor.getDescriptorType, SamplerMixinState.write, Descriptor.read,
        Descriptor.bind]

theorem immutable_sampler_overrides_writes_witness :
    (SamplerMixinState.setLayout immutableScenarioBinding 0).hasDynamicSampler = false ∧
    ((((Descriptor.sampler {}).setLayout immutableScenarioBinding 0).write .sampler
        (.image ⟨some 9, some 4, 2⟩)).2.read).imageInfo
      = some { sampler := some 7 } ∧
    ((((Descriptor.combinedImageSampler {} {}).setLayout immutableScenarioBinding 0).write
        .combinedImageSampler (.image ⟨some 9, some 4, 2⟩)).2.read).imageInfo
      = some { sampler := some 7, imageView := some 4, imageLayout := 2 } ∧
    ((((Descriptor.sampler {}).setLayout immutableScenarioBinding 0).write .sampler
        (.image ⟨some 9, some 4, 2⟩)).2.bind
        .sampler 0 (fun st => decide (st = .fragment)) .zero [] 0).1
      = ((activeStages fun st => decide (st = .fragment)).map fun stg =>
          BindOp.bindSampler stg ((MVKShaderResourceBinding.zero.stages stg).samplerIndex + 0) (some 7)) ∧
    ((((Descriptor.combinedImageSampler {} {}).setLayout immutableScenarioBinding 0).write
        .combinedImageSampler (.image ⟨some 9, some 4, 2⟩)).2.bind
        .combinedImageSampler 0 (fun st => decide (st = .fragment)) .zero [] 0).1
      = ((activeStages fun st => decide (st = .fragment)).flatMap fun stg =>
          [BindOp.bindTexture stg ((MVKShaderResourceBinding.zero.stages stg).textureIndex + 0) (some 4),
           BindOp.bindSampler stg ((MVKShaderResourceBinding.zero.stages stg).samplerIndex + 0) (some 7)]) :=
  immutable_sampler_overrides_writes immutableScenarioBinding 0 7 (by decide)
    {} {} ⟨some 9, some 4, 2⟩ (fun st => decide (st = .fragment)) .zero [] 0 0

/-- Claim C4: for every descriptor variant and every written content,
`write` with the variant's own descriptor type followed by `read` returns
the same logical resource reference, offset and range that was written
(sampler components are compared on descriptors in their dynamic-sampler
state, since an immutable-sampler descriptor deliberately ignores sampler
writes). -/
theorem write_read_roundtrip :
    (∀ (d : Descriptor) (s : BufferDescriptorState) (info : VkDescriptorBufferInfo),
      d = .uniformBuffer s ∨ d = .storageBuffer s ∨
        d = .uniformBufferDynamic s ∨ d = .storageBufferDynamic s →
      (d.write d.getDescriptorType (.buffer info)).1 = .success ∧
      ((d.write d.getDescriptorType (.buffer info)).2.read).bufferInfo = some info) ∧
    (∀ (d : Descriptor) (s : ImageDescriptorState) (info : VkDescriptorImageInfo),
      d = .sampledImage s ∨ d = .storageImage s ∨ d = .inputAttachment s →
      (d.write d.getDescriptorType (.image info)).1 = .success ∧
      (((d.write d.getDescriptorType (.image info)).2.read).imageInfo.map
          fun o => (o.imageView, o.imageLayout))
        = some (info.imageView, info.imageLayout)) ∧
    (∀ (st : SamplerMixinState) (info : VkDescriptorImageInfo),
      st.hasDynamicSampler = true →
      ((Descriptor.sampler st).write .sampler (.image info)).1 = .success ∧
      ((((Descriptor.sampler st).write .sampler (.image info)).2.read).imageInfo.map
          fun o => o.sampler)
        = some info.sampler) ∧
    (∀ (img : ImageDescriptorState) (st : SamplerMixinState) (info : VkDescriptorImageInfo),
      st.hasDynamicSampler = true →
      ((Descriptor.combinedImageSampler img st).write .combinedImageSampler (.image info)).1
        = .success ∧
      (((Descriptor.combinedImageSampler img st).write .combinedImageSampler
          (.image info)).2.read).imageInfo
        = some ⟨info.sampler, info.imageView, info.imageLayout⟩) ∧
    (∀ (d : Descriptor) (s : TexelBufferState) (v : Option Nat),
      d = .uniformTexelBuffer s ∨ d = .storageTexelBuffer s →
      (d.write d.getDescriptorType (.texelBufferView v)).1 = .success ∧
      ((d.write d.getDescriptorType (.texelBufferView v)).2.read).texelBufferView = some v) ∧
    (∀ (s : InlineUniformBlockState) (data : List Nat),
      ((Descriptor.inlineUniformBlock s).write .inlineUniformBlockEXT (.inlineBlock data)).1
        = .success ∧
      (((Descriptor.inlineUniformBlock s).write .inlineUniformBlockEXT
          (.inlineBlock data)).2.read).inlineUniformBlock = some data) := by
  refine ⟨fun d s info hd => ?_, fun d s info hd => ?_, fun st info hst => ?_,
    fun img st info hst => ?_, fun d s v hd => ?_, fun s data => ?_⟩
  · rcases hd with h | h | h | h <;> subst h <;>
      simp [Descriptor.write, Descriptor.read, Descriptor.getDescriptorType]
  · rcases hd with h | h | h <;> subst h <;>
      simp [Descriptor.write, Descriptor.read, Descriptor.getDescriptorType]
  · simp [Descriptor.write, Descriptor.read, Descriptor.getDescriptorType,
      SamplerMixinState.write, hst]
  · simp [Descriptor.write, Descriptor.read, Descriptor.getDescriptorType,
      SamplerMixinState.write, hst]
  · rcases hd with h | h <;> subst h <;>
      simp [Descriptor.write, Descriptor.read, Descriptor.getDescriptorType]
  · simp [Descriptor.write, Descriptor.read, Descriptor.getDescriptorType]

theorem write_read_roundtrip_witness :
    (((Descriptor.uniformBuffer {}).write (Descriptor.uniformBuffer {}).getDescriptorType
        (.buffer ⟨some 5, 16, 32⟩)).1 = .success ∧
      (((Descriptor.uniformBuffer {}).write (Descriptor.uniformBuffer {}).getDescriptorType
        (.buffer ⟨some 5, 16, 32⟩)).2.read).bufferInfo = some ⟨some 5, 16, 32⟩) ∧
    (((Descriptor.sampledImage {}).write (Descriptor.sampledImage {}).getDescriptorType
        (.image ⟨none, some 4, 2⟩)).1 = .success ∧
      ((((Descriptor.sampledImage {}).write (Descriptor.sampledImage {}).getDescriptorType
          (.image ⟨none, some 4, 2⟩)).2.read).imageInfo.map
            fun o => (o.imageView, o.imageLayout))
        = some ((⟨none, some 4, 2⟩ : VkDescriptorImageInfo).imageView,
            (⟨none, some 4, 2⟩ : VkDescriptorImageInfo).imageLayout)) ∧
    (((Descriptor.sampler {}).write .sampler (.image ⟨some 7, none, 0⟩)).1 = .success ∧
      ((((Descriptor.sampler {}).write .sampler (.image ⟨some 7, none, 0⟩)).2.read).imageInfo.map
          fun o => o.sampler)
        = some (⟨some 7, none, 0⟩ : VkDescriptorImageInfo).sampler) ∧
    (((Descriptor.combinedImageSampler {} {}).write .combinedImageSampler
        (.image ⟨some 7, some 4, 2⟩)).1 = .success ∧
      (((Descriptor.combinedImageSampler {} {}).write .combinedImageSampler
          (.image ⟨some 7, some 4, 2⟩)).2.read).imageInfo
        = some ⟨(⟨some 7, some 4, 2⟩ : VkDescriptorImageInfo).sampler,
            (⟨some 7, some 4, 2⟩ : VkDescriptorImageInfo).imageView,
            (⟨some 7, some 4, 2⟩ : VkDescriptorImageInfo).imageLayout⟩) ∧
    (((Descriptor.uniformTexelBuffer {}).write
        (Descriptor.uniformTexelBuffer {}).getDescriptorType (.texelBufferView (some 11))).1
        = .success ∧
      (((Descriptor.uniformTexelBuffer {}).write
          (Descriptor.uniformTexelBuffer {}).getDescriptorType
          (.texelBufferView (some 11))).2.read).texelBufferView = some (some 11)) ∧
    (((Descriptor.inlineUniformBlock {}).write .inlineUniformBlockEXT
        (.inlineBlock [1, 2, 3])).1 = .success ∧
      (((Descriptor.inlineUniformBlock {}).write .inlineUniformBlockEXT
          (.inlineBlock [1, 2, 3])).2.read).inlineUniformBlock = some [1, 2, 3]) :=
  ⟨write_read_roundtrip.1 (.uniformBuffer {}) {} ⟨some 5, 16, 32⟩ (Or.inl rfl),
   write_read_roundtrip.2.1 (.sampledImage {}) {} ⟨none, some 4, 2⟩ (Or.inl rfl),
   write_read_roundtrip.2.2.1 {} ⟨some 7, none, 0⟩ rfl,
   write_read_roundtrip.2.2.2.1 {} {} ⟨some 7, some 4, 2⟩ rfl,
   write_read_roundtrip.2.2.2.2.1 (.uniformTexelBuffer {}) {} (some 11) (Or.inl rfl),
   write_read_roundtrip.2.2.2.2.2 {} [1, 2, 3]⟩

/-- Claim C6: `reset` is idempotent — a second call yields the same cleared
state as the first; it depends only on the descriptor's variant (never on
the previously-held references, which it therefore cannot dereference); and
every variant's destructor is exactly a call to `reset`. -/
theorem reset_idempotent_and_variant_only :
    (∀ d : Descriptor, d.reset.reset = d.reset) ∧
    (∀ d d' : Descriptor, d.getDescriptorType = d'.getDescriptorType →
      d.reset = d'.reset) ∧
    (∀ d : Descriptor, d.destroy = d.reset) := by
  refine ⟨fun d => ?_, fun d d' h => ?_, fun d => rfl⟩
  · cases d <;> rfl
  · cases d <;> cases d' <;> simp_all [Descriptor.getDescriptorType, Descriptor.reset]

theorem reset_idempotent_and_variant_only_witness :
    (Descriptor.uniformBuffer ⟨some 3, 8, 16⟩).getDescriptorType =
        (Descriptor.uniformBuffer {}).getDescriptorType ∧
      (Descriptor.uniformBuffer ⟨some 3, 8, 16⟩).reset = (Descriptor.uniformBuffer {}).reset :=
  ⟨rfl, reset_idempotent_and_variant_only.2.1 _ _ rfl⟩

/-- Claim C5: a push of 2 elements into a binding with descriptor count 4,
starting at destination array element 1, leaves the counters at
`descriptorsPushed = 2`, `dstArrayElement = 3` (with no source elements
remaining), ready for a continuation call. -/
theorem push_scenario_counters :
    pushScenarioBinding.push ⟨1, 2, 0⟩ = ⟨3, 0, 2⟩ := by decide

/-- Claim C7: `write` validates the caller-declared descriptor type against
the variant's configured type; on any mismatch it reports the type-mismatch
failure and leaves the descriptor's stored state unchanged. -/
theorem write_type_mismatch_reports_failure (d : Descriptor)
    (t : VkDescriptorType) (src : WriteSource)
    (h : t ≠ d.getDescriptorType) :
    d.write t src = (.errorTypeMismatch, d) := by
  simp [Descriptor.write, h]

theorem write_type_mismatch_reports_failure_witness :
    (Descriptor.uniformBuffer {}).write .sampler (.image {}) =
      (.errorTypeMismatch, Descriptor.uniformBuffer {}) :=
  write_type_mismatch_reports_failure (Descriptor.uniformBuffer {}) .sampler
    (.image {}) (by decide)

/-- Claim C8 counterexample: with the counters stored as `uint16_t`,
accumulation wraps modulo 2^16, so a counter of `a + b` can be strictly
below the corresponding counter of `a`: at a = {buffer 65535} and
b = {buffer 1} the sum's buffer counter is 0. -/
theorem stage_counter_add_not_monotone :
    ¬ ((⟨65535, 0, 0⟩ : MVKShaderStageResourceBinding).bufferIndex ≤
        ((⟨65535, 0, 0⟩ : MVKShaderStageResourceBinding).add ⟨1, 0, 0⟩).bufferIndex) := by
  decide

/-- Claim C8 (amended): the three counters are never negative (they are
naturals reduced modulo 2^16, and addition keeps them in `uint16_t` range),
and whenever the componentwise sums stay within the `uint16_t` range — in
particular under the platform per-stage resource limits — every counter of
`a + b` is at least the corresponding counter of `a`. -/
theorem stage_counter_add_monotone_no_overflow (a b : MVKShaderStageResourceBinding)
    (hb : a.bufferIndex + b.bufferIndex < 65536)
    (ht : a.textureIndex + b.textureIndex < 65536)
    (hs : a.samplerIndex + b.samplerIndex < 65536) :
    (a.add b).isValid ∧
    a.bufferIndex ≤ (a.add b).bufferIndex ∧
    a.textureIndex ≤ (a.add b).textureIndex ∧
    a.samplerIndex ≤ (a.add b).samplerIndex := by
  unfold MVKShaderStageResourceBinding.add MVKShaderStageResourceBinding.isValid u16add
  simp only [Nat.mod_eq_of_lt hb, Nat.mod_eq_of_lt ht, Nat.mod_eq_of_lt hs]
  omega

theorem stage_counter_add_monotone_no_overflow_witness :
    ((⟨1, 2, 3⟩ : MVKShaderStageResourceBinding).add ⟨4, 5, 6⟩).isValid ∧
    (1 : Nat) ≤ ((⟨1, 2, 3⟩ : MVKShaderStageResourceBinding).add ⟨4, 5, 6⟩).bufferIndex ∧
    (2 : Nat) ≤ ((⟨1, 2, 3⟩ : MVKShaderStageResourceBinding).add ⟨4, 5, 6⟩).textureIndex ∧
    (3 : Nat) ≤ ((⟨1, 2, 3⟩ : MVKShaderStageResourceBinding).add ⟨4, 5, 6⟩).samplerIndex :=
  stage_counter_add_monotone_no_overflow ⟨1, 2, 3⟩ ⟨4, 5, 6⟩
    (by decide) (by decide) (by decide)

/-- Claim C9: `read` fills exactly the one output array matching the
variant; the other three outputs are untouched (and so may be null without
ever being dereferenced). -/
theorem read_fills_only_matching_output (d : Descriptor) :
    ((d.read).imageInfo.isSome ↔ outSlotOf d.getDescriptorType = .image) ∧
    ((d.read).bufferInfo.isSome ↔ outSlotOf d.getDescriptorType = .buffer) ∧
    ((d.read).texelBufferView.isSome ↔ outSlotOf d.getDescriptorType = .texelView) ∧
    ((d.read).inlineUniformBlock.isSome ↔ outSlotOf d.getDescriptorType = .inlineBlock) := by
  cases d <;> simp [Descriptor.read, Descriptor.getDescriptorType, outSlotOf]

/-- Claim C10: every descriptor variant reports no controlling Vulkan API
object — none of the variants overrides the base `getVulkanAPIObject`,
which returns null — unlike `MVKDescriptorSetLayoutBinding`, which does
override the query. -/
theorem descriptor_getVulkanAPIObject_none :
    (∀ d : Descriptor, d.getVulkanAPIObject = none ∧ d.getVulkanAPIObjectOverride = none) ∧
      layoutBindingOverridesGetVulkanAPIObject = true :=
  ⟨fun _ => ⟨rfl, rfl⟩, rfl⟩

theorem layout_offsets_are_running_totals_witness :
    ((initLayoutBindings true scenarioBindings .zero).1[0]? =
        some (totalFootprint true (scenarioBindings.take 0) .zero) ∧
      (initLayoutBindings true scenarioBindings .zero).2 =
        totalFootprint true scenarioBindings .zero) ∧
    ((initLayoutBindings true scenarioBindings .zero).1.map (fun r => r.stages .fragment) =
        [{}, { bufferIndex := 1 }] ∧
      (initLayoutBindings true scenarioBindings .zero).2.stages .fragment =
        { bufferIndex := 1, textureIndex := 2, samplerIndex := 2 }) :=
  layout_offsets_are_running_totals true scenarioBindings .zero 0 (by decide)

end MVK
